import Mathlib

/-!
Verification development for the Multi-Cloud-Hub asynchronous deployment
orchestration pipeline.

The definitions in this file are a shallow embedding of the Python sources:
  backend/tasks/deployment_tasks.py   (deploy_infrastructure, strip_ansi_codes, log_entry)
  backend/core/error_parser.py        (ERROR_PATTERNS, parse_terraform_error, _extract_key_error)
  backend/providers/factory.py        (ProviderFactory.create_provider)
  backend/providers/base.py           (DeploymentError, ProviderConfigurationError)
  backend/providers/terraform_provider.py (TerraformProvider._run_terraform_command)
  backend/core/database.py            (Deployment record, DeploymentStatus)

Conventions of the embedding:
  - Python dicts become association lists with unique keys; dictionary values
    become the scalar type JVal, with a `blob` constructor standing for any
    structured payload (the pipeline never inspects parameter values, it only
    moves them between keys).
  - datetime.utcnow() calls are numbered by a call counter; the n-th call
    yields the abstract instant n, and its isoformat text is given by an
    abstract environment function.
  - Effects of the task (database commits, task-state updates, log writes,
    working-directory creation, the provider deploy call) are recorded in an
    event trace; each log write is tagged with the source line that emitted it.
  - External outcomes (provider construction, the provider deploy call,
    Python regular-expression search) are supplied by a World parameter, so
    every theorem quantifies over all behaviours of the environment.
-/

namespace MCHub

/-- Character-level substring test on lists, mirroring the Python `in`
operator on strings (empty needle is contained in everything). -/
def listContainsSub (hay need : List Char) : Bool :=
  match hay with
  | [] => need.isEmpty
  | _ :: t => need.isPrefixOf hay || listContainsSub t need

/-- Python substring containment `need in hay`. -/
def strContainsSub (hay need : String) : Bool :=
  listContainsSub hay.data need.data

/-- Whitespace characters recognised by Python str.strip and the regex
class backslash-s. -/
def isPyWS (c : Char) : Bool :=
  c = ' ' || c = '\t' || c = '\n' || c = '\x0d' || c = '\x0b' || c = '\x0c'

/-- Python str.strip with no arguments: drop whitespace on both ends. -/
def pyStrip (s : String) : String :=
  ⟨((s.data.dropWhile isPyWS).reverse.dropWhile isPyWS).reverse⟩

/-- Python slicing s[:n] on a string. -/
def pyTake (s : String) (n : Nat) : String :=
  ⟨s.data.take n⟩

/-- Scalar dictionary value. Structured payloads (nested dicts, lists) are
abstracted by `blob`, since the orchestrator only moves values between keys
and never looks inside them. -/
inductive JVal where
  | s (v : String)
  | i (v : Int)
  | b (v : Bool)
  | null
  | blob (tag : Nat)
deriving DecidableEq, Repr

/-- Python str() rendering of a value, as used in f-strings. `blob` payloads
render as an abstract token. -/
def JVal.pyStr : JVal → String
  | .s v => v
  | .i v => toString v
  | .b true => "True"
  | .b false => "False"
  | .null => "None"
  | .blob n => "<value " ++ toString n ++ ">"

/-- json.dumps rendering of a scalar value (string escaping inside string
payloads is not modelled; no claim inspects it). -/
def JVal.jsonStr : JVal → String
  | .s v => "\"" ++ v ++ "\""
  | .i v => toString v
  | .b true => "true"
  | .b false => "false"
  | .null => "null"
  | .blob n => "<json " ++ toString n ++ ">"

/-- Association-list dictionary with string keys, standing for a Python dict
with unique keys. -/
abbrev Dict := List (String × JVal)

/-- Dictionary lookup, Python d.get(k). -/
def dget? : Dict → String → Option JVal
  | [], _ => none
  | (k', v) :: t, k => if k' = k then some v else dget? t k

/-- Python `k in d`. -/
def dcontains (m : Dict) (k : String) : Bool :=
  (dget? m k).isSome

/-- Python d[k] = v on a unique-key dict: replace the first binding in
place, or append a new one. -/
def dset : Dict → String → JVal → Dict
  | [], k, v => [(k, v)]
  | (k', v') :: t, k, v => if k' = k then (k, v) :: t else (k', v') :: dset t k v

/-- Python del d[k] (also the removal half of d.pop(k)). -/
def derase (m : Dict) (k : String) : Dict :=
  m.filter (fun p => !(p.1 = k))

/-- Length of a match of the ANSI-escape regex at the head of the list, if
any. The source pattern is ESC `[` followed by digits or semicolons and a
final ASCII letter (the second alternative of the source regex, ending in
`m`, is subsumed by the first). Since the digit-semicolon class and the
letter class are disjoint, greedy matching with backtracking reduces to
this direct scan. -/
def ansiMatchLen (l : List Char) : Option Nat :=
  match l with
  | '\x1b' :: '[' :: rest =>
    let k := (rest.takeWhile (fun c => c.isDigit || c = ';')).length
    match rest.drop k with
    | c :: _ => if c.isAlpha then some (3 + k) else none
    | [] => none
  | _ => none

/-- Left-to-right non-overlapping substitution of the ANSI-escape regex by
the empty string, fuelled by the input length (each match consumes at least
three characters, so the fuel suffices). -/
def stripAnsiAux : Nat → List Char → List Char
  | 0, _ => []
  | _, [] => []
  | fuel + 1, c :: cs =>
    match ansiMatchLen (c :: cs) with
    | some k => stripAnsiAux fuel ((c :: cs).drop k)
    | none => c :: stripAnsiAux fuel cs

/-- The box-drawing characters removed by strip_ansi_codes. -/
def boxChars : List Char :=
  ['│', '╵', '╷', '╭', '╮', '╰', '╯', '┌', '┐', '└', '┘', '├', '┤', '┬', '┴', '┼', '─']

/-- Substitution of each maximal run of spaces and tabs by a single space,
the source regex being a space-tab class repeated, replaced by one space. -/
def collapseSpacesAux : Bool → List Char → List Char
  | _, [] => []
  | inRun, c :: cs =>
    if c = ' ' || c = '\t' then
      if inRun then collapseSpacesAux true cs else ' ' :: collapseSpacesAux true cs
    else c :: collapseSpacesAux false cs

/-- Index of the last newline character in a list, if any. -/
def lastNewlineIdx (l : List Char) : Option Nat :=
  match l.reverse.findIdx? (fun c => c = '\n') with
  | some j => some (l.length - 1 - j)
  | none => none

/-- Left-to-right non-overlapping substitution of newline, whitespace run,
newline by a single newline. A match starts at a newline whose following
maximal whitespace run contains another newline; greedy backtracking ends
the match at the last newline of that run. -/
def collapseBlankAux : Nat → List Char → List Char
  | 0, _ => []
  | _, [] => []
  | fuel + 1, c :: cs =>
    if c = '\n' then
      match lastNewlineIdx (cs.takeWhile isPyWS) with
      | some k => '\n' :: collapseBlankAux fuel (cs.drop (k + 1))
      | none => c :: collapseBlankAux fuel cs
    else c :: collapseBlankAux fuel cs

/-- Embedding of strip_ansi_codes from backend/tasks/deployment_tasks.py:
remove ANSI escape sequences, remove box-drawing characters, collapse
space-tab runs, collapse blank lines, and strip the ends. The empty string
is returned unchanged by the leading falsiness test. -/
def strip_ansi_codes (text : String) : String :=
  if text = "" then text
  else
    let l1 := stripAnsiAux text.data.length text.data
    let l2 := l1.filter (fun c => !(boxChars.contains c))
    let l3 := collapseSpacesAux false l2
    let l4 := collapseBlankAux l3.length l3
    pyStrip ⟨l4⟩

/-- Python str.upper on the ASCII phase names used by the task. -/
def pyUpper (s : String) : String :=
  ⟨s.data.map Char.toUpper⟩

/-- Embedding of log_entry from backend/tasks/deployment_tasks.py. The
timestamp text is supplied by the caller (the n-th utcnow of the run); the
details argument is the already-rendered json.dumps text of the source
call's details dict. -/
def log_entry (timestamp level message : String) (phase : Option String)
    (details : Option String) : String :=
  let parts := ["[" ++ timestamp ++ "]", "[" ++ level ++ "]"]
  let parts := parts ++ (match phase with
    | some p => ["[" ++ pyUpper p ++ "]"]
    | none => [])
  let parts := parts ++ [message]
  let parts := parts ++ (match details with
    | some d => ["- " ++ d]
    | none => [])
  String.intercalate " " parts ++ "\n"

/-- Python str.lower, on the ASCII text the classifier works with. -/
def pyLower (s : String) : String :=
  ⟨s.data.map Char.toLower⟩

/-- Python startswith. -/
def pyStartsWith (s pre : String) : Bool :=
  pre.data.isPrefixOf s.data

/-- Python str.replace: all non-overlapping occurrences, left to right,
fuelled by the input length (the needle is nonempty at every call site). -/
def pyReplaceAux : Nat → List Char → List Char → List Char → List Char
  | 0, _, _, _ => []
  | _, [], _, _ => []
  | fuel + 1, c :: cs, pat, rep =>
    if pat.isPrefixOf (c :: cs) then
      rep ++ pyReplaceAux fuel ((c :: cs).drop pat.length) pat rep
    else c :: pyReplaceAux fuel cs pat rep

/-- Python s.replace(pat, rep). -/
def pyReplace (s pat rep : String) : String :=
  ⟨pyReplaceAux s.data.length s.data pat.data rep.data⟩

/-- Python s.split(backslash-n): split a character list at newlines; the
empty input yields one empty field, like the Python call. -/
def splitLines : List Char → List (List Char)
  | [] => [[]]
  | c :: cs =>
    if c = '\n' then [] :: splitLines cs
    else
      match splitLines cs with
      | h :: t => (c :: h) :: t
      | [] => [[c]]

/-- Lookup in a string-valued association list, for the dicts the error
classifier returns. -/
def sget? : List (String × String) → String → Option String
  | [], _ => none
  | (k', v) :: t, k => if k' = k then some v else sget? t k

/-- One pattern-descriptor rule of ERROR_PATTERNS in
backend/core/error_parser.py. -/
structure ErrPattern where
  pattern : String
  title : String
  message : String
  solution : String
  exampleText : Option String
deriving DecidableEq, Repr

/-- Embedding of the ordered ERROR_PATTERNS rule list of
backend/core/error_parser.py, verbatim. -/
def ERROR_PATTERNS : List ErrPattern := [
  ⟨"admin_password.*fulfill.*conditions.*Has lower.*Has upper.*Has a digit.*Has a special character",
   "Password Too Weak",
   "Your password needs to be stronger.",
   "Use a password with: uppercase (A-Z), lowercase (a-z), numbers (0-9), and special characters (!@#$%)",
   some "Example: MyP@ssw0rd123"⟩,
  ⟨"admin_password.*at least (\\d+) characters",
   "Password Too Short",
   "Your password is too short.",
   "Use a password with at least 12 characters.",
   some "Example: MyP@ssw0rd123"⟩,
  ⟨"admin_ssh_key.*not a complete SSH2 Public Key",
   "Invalid SSH Key",
   "The SSH public key format is incorrect.",
   "Use a valid SSH public key starting with \x27ssh-rsa\x27 or \x27ssh-ed25519\x27.",
   some "Generate one with: ssh-keygen -t rsa -b 4096"⟩,
  ⟨"address_space requires \\d+ item minimum.*has only 0",
   "Missing Network Address",
   "Virtual network address space is required.",
   "Enter a CIDR block for the virtual network.",
   some "Example: 10.0.0.0/16"⟩,
  ⟨"not.*valid CIDR",
   "Invalid Network Address",
   "The network address format is incorrect.",
   "Use CIDR notation (IP/prefix).",
   some "Example: 10.0.0.0/16 or 192.168.1.0/24"⟩,
  ⟨"RequestDisallowedByAzure.*policy.*regions",
   "Region Not Allowed",
   "Your Azure subscription restricts deployments to certain regions.",
   "Try a different region that\x27s allowed by your organization\x27s policy.",
   some "Common regions: westeurope, northeurope, eastus"⟩,
  ⟨"Resource group.*not found|ResourceGroupNotFound",
   "Resource Group Not Found",
   "The specified resource group doesn\x27t exist.",
   "Create the resource group first or select an existing one.",
   none⟩,
  ⟨"QuotaExceeded|exceeds.*quota",
   "Quota Exceeded",
   "You\x27ve reached your Azure resource limit.",
   "Request a quota increase in Azure Portal or delete unused resources.",
   none⟩,
  ⟨"name.*can only contain|invalid.*name|naming convention",
   "Invalid Resource Name",
   "The resource name contains invalid characters.",
   "Use only lowercase letters, numbers, and hyphens. Start with a letter.",
   some "Example: my-storage-account-01"⟩,
  ⟨"Storage account name must be between (\\d+) and (\\d+) characters",
   "Invalid Storage Account Name",
   "Storage account name length is incorrect.",
   "Use 3-24 characters, only lowercase letters and numbers.",
   some "Example: mystorageaccount01"⟩,
  ⟨"already exists|is already taken|AlreadyExists",
   "Name Already Taken",
   "This resource name is already in use.",
   "Choose a different, unique name.",
   none⟩,
  ⟨"AuthorizationFailed|403.*Forbidden|Access Denied",
   "Access Denied",
   "You don\x27t have permission to perform this action.",
   "Check your Azure credentials and permissions.",
   none⟩,
  ⟨"authentication failed|invalid.*credentials|AADSTS",
   "Authentication Failed",
   "Azure login failed.",
   "Check your Azure credentials in the environment settings.",
   none⟩,
  ⟨"googleapi.*403|Permission.*denied.*GCP",
   "GCP Access Denied",
   "You don\x27t have permission in Google Cloud.",
   "Check your GCP service account permissions.",
   none⟩,
  ⟨"project.*not found|Project.*does not exist",
   "GCP Project Not Found",
   "The specified GCP project doesn\x27t exist.",
   "Verify the project ID is correct.",
   none⟩,
  ⟨"timeout|connection refused|network.*unreachable",
   "Connection Failed",
   "Could not connect to cloud provider.",
   "Check your internet connection and try again.",
   none⟩,
  ⟨"Too many parameters.*max:\\s*(\\d+)",
   "Too Many Parameters",
   "You\x27ve provided too many configuration parameters.",
   "Reduce the number of parameters to 100 or fewer.",
   none⟩,
  ⟨"Parameter name too long",
   "Parameter Name Too Long",
   "One of your parameter names exceeds the maximum length.",
   "Use shorter parameter names (max 100 characters).",
   none⟩,
  ⟨"Parameter value too long for \x27([^\x27]+)\x27",
   "Parameter Value Too Long",
   "The value for a parameter exceeds the maximum allowed length.",
   "Shorten the parameter value (max 10,000 characters).",
   none⟩,
  ⟨"Invalid content.*contains shell metacharacters|[;&|`]",
   "Invalid Characters Detected",
   "Your input contains characters that aren\x27t allowed for security reasons.",
   "Remove special characters like ; & | ` from your input.",
   none⟩,
  ⟨"Invalid content.*contains path traversal|\\.\\./",
   "Invalid Path Detected",
   "Your input contains path patterns that aren\x27t allowed.",
   "Remove \x27../\x27 or \x27..\\ patterns from your input.",
   none⟩,
  ⟨"Invalid content.*contains script tags|<script",
   "Script Not Allowed",
   "Your input contains script content that isn\x27t allowed.",
   "Remove any script tags from your input.",
   none⟩,
  ⟨"Invalid content.*contains SQL injection|DROP\\s+TABLE",
   "Invalid SQL Detected",
   "Your input contains SQL patterns that aren\x27t allowed.",
   "Remove any SQL commands from your input.",
   none⟩,
  ⟨"Invalid content.*contains code execution|eval\\s*\\(",
   "Code Execution Not Allowed",
   "Your input contains code execution patterns that aren\x27t allowed.",
   "Remove any eval() or similar patterns from your input.",
   none⟩,
  ⟨"Invalid content in \x27([^\x27]+)\x27",
   "Invalid Input Detected",
   "Your input contains content that isn\x27t allowed for security reasons.",
   "Review your input and remove any special patterns or scripts.",
   none⟩,
  ⟨"Storage account name must be.*3.*24.*lowercase",
   "Invalid Storage Account Name",
   "Azure storage account names have specific requirements.",
   "Use 3-24 characters, only lowercase letters and numbers (no hyphens).",
   some "Example: mystorageaccount01"⟩,
  ⟨"Resource group name.*invalid|Resource group.*1-90 characters",
   "Invalid Resource Group Name",
   "The resource group name doesn\x27t meet Azure requirements.",
   "Use 1-90 characters: letters, numbers, hyphens, underscores, periods, or parentheses.",
   some "Example: my-resource-group-01"⟩,
  ⟨"GCP bucket name.*invalid|Bucket name must be.*3-63",
   "Invalid Bucket Name",
   "The GCP bucket name doesn\x27t meet requirements.",
   "Use 3-63 characters: lowercase letters, numbers, hyphens. Start/end with letter or number.",
   some "Example: my-storage-bucket-01"⟩,
  ⟨"Project ID.*invalid|project_id.*6-30 characters",
   "Invalid GCP Project ID",
   "The GCP project ID doesn\x27t meet requirements.",
   "Use 6-30 characters: lowercase letters, numbers, hyphens. Start with a letter.",
   some "Example: my-project-123"⟩,
  ⟨"CIDR.*invalid|Invalid CIDR",
   "Invalid Network Address",
   "The network address (CIDR) format is incorrect.",
   "Use CIDR notation: IP address followed by /prefix.",
   some "Example: 10.0.0.0/16 or 192.168.1.0/24"⟩,
  ⟨"IP address.*invalid|Invalid IP",
   "Invalid IP Address",
   "The IP address format is incorrect.",
   "Use standard IPv4 format.",
   some "Example: 192.168.1.1"⟩,
  ⟨"app_name.*reserved word|name.*reserved|is a reserved word",
   "Reserved Name",
   "You can\x27t use this name because it\x27s reserved.",
   "Choose a different name that isn\x27t a reserved word.",
   none⟩,
  ⟨"app_name.*3-24 characters|name.*must be.*characters",
   "Invalid Application Name",
   "The application name length is incorrect.",
   "Use 3-24 characters: lowercase letters, numbers, and hyphens.",
   some "Example: my-web-app"⟩]

/-- The substrings the second loop of _extract_key_error scans for. -/
def errorIndicators : List String :=
  ["error:", "failed:", "invalid", "not found", "denied"]

/-- Embedding of _extract_key_error from backend/core/error_parser.py:
first a line whose stripped form starts with the Error marker, then a line
containing an indicator and longer than ten characters once stripped, then
the first non-empty line, and a constant fallback. -/
def _extract_key_error (error_message : String) : String :=
  let lines := (splitLines error_message.data).map (fun d => (⟨d⟩ : String))
  match lines.find? (fun l => pyStartsWith (pyStrip l) "Error:") with
  | some l => pyStrip (pyReplace (pyStrip l) "Error:" "")
  | none =>
    match lines.find? (fun l =>
        errorIndicators.any (fun ind => strContainsSub (pyLower l) ind)
        && decide ((pyStrip l).length > 10)) with
    | some l => pyTake (pyStrip l) 200
    | none =>
      match lines.find? (fun l => pyStrip l ≠ "") with
      | some l => pyTake (pyStrip l) 200
      | none => "Deployment failed"

/-- Embedding of parse_terraform_error from backend/core/error_parser.py.
The result is the literal key-value dict each branch of the source builds.
Python regular-expression search (with the IGNORECASE and DOTALL flags) is
abstracted by the `re` argument: `re pattern text` is true when the search
finds a match, so every theorem below holds for the real matcher. The
lower-cased `normalized` variable of the source is unused there and is not
modelled. -/
def parse_terraform_error (re : String → String → Bool)
    (error_message : String) : List (String × String) :=
  if error_message = "" then
    [("title", "Unknown Error"),
     ("message", "An unexpected error occurred."),
     ("solution", "Please try again or contact support."),
     ("original", "")]
  else
    match ERROR_PATTERNS.find? (fun p => re p.pattern error_message) with
    | some p =>
      let base := [("title", p.title), ("message", p.message),
        ("solution", p.solution), ("original", _extract_key_error error_message)]
      if (p.exampleText.getD "") ≠ "" then base ++ [("example", p.exampleText.getD "")]
      else base
    | none =>
      [("title", "Deployment Error"),
       ("message", _extract_key_error error_message),
       ("solution", "Review the error details and adjust your configuration."),
       ("original", if error_message.length > 500 then pyTake error_message 500
         else error_message)]

/-- The typed exceptions of backend/providers/base.py, plus a constructor
for any other Python exception reaching the generic handler. Both typed
classes pass their message to the Exception constructor, so str(e) is the
message; neither defines get_friendly_message. -/
inductive PyExc where
  | deploymentError (message provider : String)
  | providerConfigError (message provider : String)
  | generic (message : String)
deriving DecidableEq, Repr

/-- Python str(e) for the modelled exceptions. -/
def PyExc.str : PyExc → String
  | .deploymentError m _ => m
  | .providerConfigError m _ => m
  | .generic m => m

/-- Python type(e).__name__ for the modelled exceptions. -/
def PyExc.typeName : PyExc → String
  | .deploymentError _ _ => "DeploymentError"
  | .providerConfigError _ _ => "ProviderConfigurationError"
  | .generic _ => "Exception"

/-- Embedding of DeploymentStatus from backend/core/database.py. -/
inductive DeploymentStatus where
  | pending
  | running
  | completed
  | failed
  | cancelled
deriving DecidableEq, Repr

/-- The fields of the Deployment row that deploy_infrastructure reads or
writes. The nullable logs column is modelled as a string, a NULL being the
empty string: the task always assigns logs before appending to it. -/
structure Record where
  status : DeploymentStatus
  started_at : Option Nat
  completed_at : Option Nat
  outputs : Option Dict
  error_message : Option String
  logs : String
  celery_task_id : Option String
deriving DecidableEq, Repr

/-- Record with the logs field extended at the end. -/
def Record.extendLogs (r : Record) (s : String) : Record :=
  { r with logs := r.logs ++ s }

/-- One observable effect of a run of deploy_infrastructure, in program
order. Log writes carry the source line of the log_entry call and its
message argument; update_state carries the celery state, the meta phase,
status text, progress and error fields; deployCall records the merged
parameter mapping and location handed to provider.deploy. -/
inductive Event where
  | commit (r : Record)
  | mkWorkDir
  | updateState (state : String) (phase : Option String) (statusText : Option String)
      (progress : Option Nat) (error : Option String)
  | logWrite (line : Nat) (message : String)
  | deployCall (parameters : Dict) (location : JVal)
deriving DecidableEq, Repr

/-- Behaviour of TerraformProvider construction when the factory reaches
it: `ok` constructs normally, `typeError` fails at the call itself before
the init body runs (for instance unexpected keyword arguments), and
`initError` fails inside the init body after the temporary working
directory has been created (for instance the terraform binary missing). -/
inductive CtorBehavior where
  | ok
  | typeError (msg : String)
  | initError (msg : String)
deriving DecidableEq, Repr

/-- Behaviour of the provider deploy call. TerraformProvider.deploy wraps
every failure in a DeploymentError and on success always returns a mapping
in its outputs field (a JSON decode failure falls back to the empty dict);
`unexpectedError` stands for any exception outside the typed hierarchy
reaching the orchestrator's generic handler. -/
inductive DeployBehavior where
  | success (outputs : Dict)
  | deployError (message : String)
  | unexpectedError (message : String)
deriving DecidableEq, Repr

/-- Everything the environment decides during one run: provider
construction, the deploy call, the isoformat text of the n-th utcnow call,
the traceback text, and the Python regex search used by the classifier. -/
structure World where
  ctor : CtorBehavior
  dep : DeployBehavior
  iso : Nat → String
  tb : String
  re : String → String → Bool

/-- The keys of ProviderFactory._providers in
backend/providers/factory.py: the registry maps terraform-azure,
terraform-gcp, gcp and terraform (the ProviderType.TERRAFORM value) to
TerraformProvider. -/
def registryKeys : List String :=
  ["terraform-azure", "terraform-gcp", "gcp", "terraform"]

/-- The comma-joined registry keys used in the unsupported-type message. -/
def availableProvidersText : String :=
  "terraform-azure, terraform-gcp, gcp, terraform"

/-- Embedding of ProviderFactory.create_provider: lower-case the tag, fail
with ProviderConfigurationError when it is not registered, otherwise
construct a TerraformProvider, wrapping any construction failure in a
ProviderConfigurationError. The returned events record whether the
construction created its temporary working directory. -/
def create_provider (provider_type : String) (ctor : CtorBehavior) :
    List Event × Except PyExc Unit :=
  if registryKeys.contains (pyLower provider_type) then
    match ctor with
    | .ok => ([.mkWorkDir], .ok ())
    | .typeError msg =>
      ([], .error (.providerConfigError
        ("Failed to initialize " ++ provider_type ++ " provider: " ++ msg) provider_type))
    | .initError msg =>
      ([.mkWorkDir], .error (.providerConfigError
        ("Failed to initialize " ++ provider_type ++ " provider: " ++ msg) provider_type))
  else
    ([], .error (.providerConfigError
      ("Unsupported provider type: \x27" ++ provider_type
        ++ "\x27. Available providers: " ++ availableProvidersText) provider_type))

/-- Embedding of the provider_type_mapping dict lookup with default inside
deploy_infrastructure: bicep and arm map to azure, the terraform tags map
to themselves, anything else is passed through. -/
def provider_type_mapping (pt : String) : String :=
  if pt = "bicep" then "azure"
  else if pt = "arm" then "azure"
  else if pt = "terraform-azure" then "terraform-azure"
  else if pt = "terraform-gcp" then "terraform-gcp"
  else pt

/-- Outcome of the subprocess.run call inside
TerraformProvider._run_terraform_command. -/
inductive SubprocOutcome where
  | completed (stdout stderr : String) (returncode : Int)
  | timedOut
  | execFailure (msg : String)
deriving DecidableEq, Repr

/-- The subprocess invocation _run_terraform_command issues. -/
structure SubprocCall where
  argv : List String
  timeoutSeconds : Nat
deriving DecidableEq, Repr

/-- The argv and fixed timeout of the subprocess.run call in
TerraformProvider._run_terraform_command (timeout=600, ten minutes). -/
def terraformSubprocCall (command : List String) : SubprocCall :=
  { argv := "terraform" :: command, timeoutSeconds := 600 }

/-- Embedding of TerraformProvider._run_terraform_command: on completion
return combined stdout and stderr with the exit code, whatever the code;
on TimeoutExpired raise a DeploymentError naming the ten-minute timeout;
on any other execution failure raise a DeploymentError wrapping it. -/
def _run_terraform_command (outcome : SubprocOutcome) : Except PyExc (String × Int) :=
  match outcome with
  | .completed stdout stderr rc => .ok (stdout ++ stderr, rc)
  | .timedOut =>
    .error (.deploymentError "Terraform command timed out after 10 minutes" "terraform")
  | .execFailure m =>
    .error (.deploymentError ("Failed to execute Terraform command: " ++ m) "terraform")

/-- Inputs of a deploy_infrastructure dispatch. -/
structure TaskInput where
  deployment_id : String
  provider_type : String
  template_path : String
  parameters : Dict
  resource_group : Option String
  provider_config : Option Dict

/-- The dict deploy_infrastructure returns on success. -/
structure RetVal where
  deployment_id : String
  status : String
  phase : String
  outputs : Dict
  message : String
deriving DecidableEq, Repr

/-- Result of one run: the event trace, the final record state, and the
return value or the message of the re-raised RuntimeError. -/
structure RunResult where
  events : List Event
  final : Option Record
  ret : Except String RetVal

/-- json.dumps text of the log details at source line 165. -/
def jsonDetailsLocation (location : JVal) (rg : Option String) : String :=
  "\x7b\"location\": " ++ location.jsonStr ++ ", \"resource_group\": "
    ++ (match rg with | some s => "\"" ++ s ++ "\"" | none => "null") ++ "\x7d"

/-- json.dumps text of the error_type log details on the failure paths. -/
def jsonDetailsErrorType (n : String) : String :=
  "\x7b\"error_type\": \"" ++ n ++ "\"\x7d"

/-- json.dumps text of the output_count log details at source line 285. -/
def jsonDetailsOutputCount (n : Nat) : String :=
  "\x7b\"output_count\": " ++ toString n ++ "\x7d"

/-- Embedding of the parameter merge at source lines 216 to 242: copy the
caller parameters; for azure-containing provider tags add subscription_id
and resource_group_name; for gcp-containing tags rename tags to labels and
projectId to project_id, fall back to the provider_config project_id, and
drop resource_group_name; finally always set location. -/
def mergeDeploymentParameters (actual_provider_type : String) (parameters : Dict)
    (provider_config : Dict) (resource_group : Option String) (location : JVal) : Dict :=
  let dp := parameters
  let dp :=
    if strContainsSub actual_provider_type "azure" then
      let dp := dset dp "subscription_id" ((dget? provider_config "subscription_id").getD .null)
      dset dp "resource_group_name"
        (match resource_group with | some s => .s s | none => .null)
    else if strContainsSub actual_provider_type "gcp" then
      let dp :=
        if dcontains dp "tags" then
          dset (derase dp "tags") "labels" ((dget? dp "tags").getD .null)
        else dp
      let dp :=
        if dcontains dp "projectId" && !dcontains dp "project_id" then
          dset (derase dp "projectId") "project_id" ((dget? dp "projectId").getD .null)
        else dp
      let dp :=
        if !dcontains dp "project_id" && dcontains provider_config "project_id" then
          dset dp "project_id" ((dget? provider_config "project_id").getD .null)
        else dp
      if dcontains dp "resource_group_name" then derase dp "resource_group_name" else dp
    else dp
  dset dp "location" location

/-- Embedding of the typed handler at source lines 310 to 335: neither
DeploymentError nor ProviderConfigurationError defines
get_friendly_message, so the hasattr test fails and the friendly message
is str(e); the record moves to FAILED with completed_at set, the stripped
message stored, two ERROR log lines appended and committed, the task state
set to FAILURE, and a RuntimeError carrying the message re-raised. The
argument t is the index of the next utcnow call. -/
def handleTypedError (w : World) (t : Nat) (evs : List Event) (d : Option Record)
    (e : PyExc) : RunResult :=
  let friendly := e.str
  match d with
  | some r =>
    let r := { r with
      status := .failed,
      completed_at := some t,
      error_message := some (strip_ansi_codes friendly),
      logs := r.logs ++ ("\n"
        ++ log_entry (w.iso (t + 1)) "ERROR" "✗ Deployment failed" (some "failed")
            (some (jsonDetailsErrorType e.typeName))
        ++ log_entry (w.iso (t + 2)) "ERROR" (strip_ansi_codes friendly) (some "failed") none) }
    { events := evs ++ [.logWrite 320 "✗ Deployment failed",
        .logWrite 322 (strip_ansi_codes friendly), .commit r,
        .updateState "FAILURE" (some "failed") none none (some friendly)],
      final := some r,
      ret := .error friendly }
  | none =>
    { events := evs ++ [.updateState "FAILURE" (some "failed") none none (some friendly)],
      final := none,
      ret := .error friendly }

/-- Embedding of the generic handler at source lines 337 to 370: strip the
exception text, classify it with parse_terraform_error, build the friendly
message from title, message and optional solution, move the record to
FAILED with the friendly message, append two ERROR log lines and the full
traceback, commit, set the task state to FAILURE, and re-raise a
RuntimeError carrying the friendly message. -/
def handleGenericError (w : World) (t : Nat) (evs : List Event) (d : Option Record)
    (e : PyExc) : RunResult :=
  let error_text := strip_ansi_codes e.str
  let parsed := parse_terraform_error w.re error_text
  let friendly := (sget? parsed "title").getD "Error" ++ " | "
    ++ (sget? parsed "message").getD error_text
  let friendly :=
    if (sget? parsed "solution").getD "" ≠ "" then
      friendly ++ " | Solution: " ++ (sget? parsed "solution").getD ""
    else friendly
  match d with
  | some r =>
    let r := { r with
      status := .failed,
      completed_at := some t,
      error_message := some friendly,
      logs := r.logs ++ ("\n"
        ++ log_entry (w.iso (t + 1)) "ERROR" "✗ Unexpected error occurred" (some "failed")
            (some (jsonDetailsErrorType e.typeName))
        ++ log_entry (w.iso (t + 2)) "ERROR" friendly (some "failed") none
        ++ "\n--- Full Traceback ---\n" ++ w.tb) }
    { events := evs ++ [.logWrite 353 "✗ Unexpected error occurred",
        .logWrite 355 friendly, .commit r,
        .updateState "FAILURE" (some "failed") none none (some friendly)],
      final := some r,
      ret := .error friendly }
  | none =>
    { events := evs ++ [.updateState "FAILURE" (some "failed") none none (some friendly)],
      final := none,
      ret := .error friendly }

/-- The run of deploy_infrastructure when the record query found a row.
Consecutive log appends between two commits are grouped into one
extendLogs; utcnow calls are numbered in program order. -/
def deployWithRecord (inp : TaskInput) (w : World) (taskId : String) (r0 : Record) :
    RunResult :=
  let pc := inp.provider_config.getD []
  let r1 : Record := { r0 with
    status := .running,
    started_at := some 0,
    celery_task_id := some taskId,
    logs := log_entry (w.iso 1) "INFO" ("Starting deployment " ++ inp.deployment_id)
      (some "initialization") none }
  let evs := [Event.logWrite 120 ("Starting deployment " ++ inp.deployment_id),
    Event.commit r1,
    Event.updateState "RUNNING" none (some "initializing") (some 10) none]
  let apt := provider_type_mapping inp.provider_type
  let r2 := r1.extendLogs (log_entry (w.iso 2) "INFO"
    ("Initializing " ++ apt ++ " provider") (some "initialization") none)
  let evs := evs ++ [Event.logWrite 147 ("Initializing " ++ apt ++ " provider"),
    Event.commit r2]
  let fr := create_provider apt w.ctor
  let evs := evs ++ fr.1
  match fr.2 with
  | .error e => handleTypedError w 3 evs (some r2) e
  | .ok _ =>
    let r3 := r2.extendLogs (log_entry (w.iso 3) "INFO" "Provider initialized successfully"
      (some "initialization") none)
    let evs := evs ++ [Event.logWrite 157 "Provider initialized successfully",
      Event.commit r3]
    let location := (dget? pc "region").getD (.s "us-east-1")
    let r4 := r3.extendLogs (
      log_entry (w.iso 4) "INFO" ("Starting deployment to " ++ location.pyStr)
        (some "initialization") (some (jsonDetailsLocation location inp.resource_group))
      ++ log_entry (w.iso 5) "INFO"
        ("Resource group: " ++ (match inp.resource_group with | some s => s | none => "None"))
        (some "initialization") none
      ++ log_entry (w.iso 6) "INFO" ("Template: " ++ inp.template_path)
        (some "initialization") none)
    let evs := evs ++ [Event.logWrite 165 ("Starting deployment to " ++ location.pyStr),
      Event.logWrite 167
        ("Resource group: " ++ (match inp.resource_group with | some s => s | none => "None")),
      Event.logWrite 168 ("Template: " ++ inp.template_path),
      Event.commit r4]
    let r5 := r4.extendLogs ("\n"
      ++ log_entry (w.iso 7) "INFO" "=== PHASE 1: VALIDATION ===" (some "validating") none
      ++ log_entry (w.iso 8) "INFO" "Validating template syntax and parameters..."
        (some "validating") none)
    let evs := evs ++ [
      Event.updateState "RUNNING" (some "validating")
        (some "Validating template configuration") (some 25) none,
      Event.logWrite 182 "=== PHASE 1: VALIDATION ===",
      Event.logWrite 183 "Validating template syntax and parameters...",
      Event.commit r5]
    let r6 := r5.extendLogs ("\n"
      ++ log_entry (w.iso 9) "INFO" "=== PHASE 2: PLANNING ===" (some "planning") none
      ++ log_entry (w.iso 10) "INFO" "Calculating infrastructure changes..."
        (some "planning") none)
    let evs := evs ++ [
      Event.updateState "RUNNING" (some "planning")
        (some "Generating execution plan") (some 40) none,
      Event.logWrite 197 "=== PHASE 2: PLANNING ===",
      Event.logWrite 198 "Calculating infrastructure changes...",
      Event.commit r6]
    let r7 := r6.extendLogs ("\n"
      ++ log_entry (w.iso 11) "INFO" "=== PHASE 3: APPLYING ===" (some "applying") none
      ++ log_entry (w.iso 12) "INFO" "Provisioning cloud resources..."
        (some "applying") none)
    let evs := evs ++ [
      Event.updateState "RUNNING" (some "applying")
        (some "Applying infrastructure changes") (some 60) none,
      Event.logWrite 212 "=== PHASE 3: APPLYING ===",
      Event.logWrite 213 "Provisioning cloud resources...",
      Event.commit r7]
    let dparams := mergeDeploymentParameters apt inp.parameters pc inp.resource_group location
    let evs := evs ++ [Event.deployCall dparams location]
    match w.dep with
    | .deployError m => handleTypedError w 13 evs (some r7) (.deploymentError m "terraform")
    | .unexpectedError m => handleGenericError w 13 evs (some r7) (.generic m)
    | .success outs =>
      let r8 := r7.extendLogs (log_entry (w.iso 13) "INFO" "Deployment execution completed"
        (some "applying") none)
      let evs := evs ++ [Event.logWrite 260 "Deployment execution completed",
        Event.commit r8]
      let r9 := r8.extendLogs ("\n"
        ++ log_entry (w.iso 14) "INFO" "=== PHASE 4: FINALIZING ===" (some "finalizing") none
        ++ log_entry (w.iso 15) "INFO" "Collecting deployment outputs..."
          (some "finalizing") none)
      let evs := evs ++ [
        Event.updateState "RUNNING" (some "finalizing")
          (some "Retrieving outputs and finalizing") (some 90) none,
        Event.logWrite 274 "=== PHASE 4: FINALIZING ===",
        Event.logWrite 275 "Collecting deployment outputs...",
        Event.commit r9]
      let r10 := { r9 with
        status := .completed,
        completed_at := some 16,
        outputs := some outs,
        logs := r9.logs ++ (
          log_entry (w.iso 17) "INFO" "✓ Deployment completed successfully"
            (some "completed") none
          ++ (if outs ≠ [] then
              log_entry (w.iso 18) "INFO" "Outputs collected" (some "completed")
                (some (jsonDetailsOutputCount outs.length))
            else "")) }
      let evs := evs ++ [Event.logWrite 283 "✓ Deployment completed successfully"]
      let evs := evs ++ (if outs ≠ [] then [Event.logWrite 285 "Outputs collected"] else [])
      let evs := evs ++ [Event.commit r10,
        Event.updateState "SUCCESS" (some "completed")
          (some "Deployment completed successfully") (some 100) none]
      { events := evs,
        final := some r10,
        ret := .ok ⟨inp.deployment_id, "completed", "completed", outs,
          "Deployment completed successfully"⟩ }

/-- The run of deploy_infrastructure when no record row was found: the
defensive branches skip every record mutation, only task-state updates,
the factory call and the deploy call happen. -/
def deployNoRecord (inp : TaskInput) (w : World) : RunResult :=
  let pc := inp.provider_config.getD []
  let evs := [Event.updateState "RUNNING" none (some "initializing") (some 10) none]
  let apt := provider_type_mapping inp.provider_type
  let fr := create_provider apt w.ctor
  let evs := evs ++ fr.1
  match fr.2 with
  | .error e => handleTypedError w 0 evs none e
  | .ok _ =>
    let location := (dget? pc "region").getD (.s "us-east-1")
    let evs := evs ++ [
      Event.updateState "RUNNING" (some "validating")
        (some "Validating template configuration") (some 25) none,
      Event.updateState "RUNNING" (some "planning")
        (some "Generating execution plan") (some 40) none,
      Event.updateState "RUNNING" (some "applying")
        (some "Applying infrastructure changes") (some 60) none]
    let dparams := mergeDeploymentParameters apt inp.parameters pc inp.resource_group location
    let evs := evs ++ [Event.deployCall dparams location]
    match w.dep with
    | .deployError m => handleTypedError w 0 evs none (.deploymentError m "terraform")
    | .unexpectedError m => handleGenericError w 0 evs none (.generic m)
    | .success outs =>
      let evs := evs ++ [
        Event.updateState "RUNNING" (some "finalizing")
          (some "Retrieving outputs and finalizing") (some 90) none,
        Event.updateState "SUCCESS" (some "completed")
          (some "Deployment completed successfully") (some 100) none]
      { events := evs,
        final := none,
        ret := .ok ⟨inp.deployment_id, "completed", "completed", outs,
          "Deployment completed successfully"⟩ }

/-- Embedding of the task body of deploy_infrastructure in
backend/tasks/deployment_tasks.py: the initial query either found a row or
not, and the two cases are spelled out separately since every record
mutation is guarded by the defensive existence test. -/
def deploy_infrastructure (inp : TaskInput) (taskId : String) (w : World)
    (d0 : Option Record) : RunResult :=
  match d0 with
  | some r0 => deployWithRecord inp w taskId r0
  | none => deployNoRecord inp w

/-- The record states committed to the database during a run, in order. -/
def commitsOf : List Event → List Record
  | [] => []
  | .commit r :: t => r :: commitsOf t
  | .mkWorkDir :: t => commitsOf t
  | .updateState _ _ _ _ _ :: t => commitsOf t
  | .logWrite _ _ :: t => commitsOf t
  | .deployCall _ _ :: t => commitsOf t

/-- The merged parameter mapping handed to provider.deploy, if the run
reached the deploy call. -/
def deployCallOf (evs : List Event) : Option Dict :=
  evs.findSome? (fun e => match e with | .deployCall m _ => some m | _ => none)

/-- The record invariant of the spec: started_at is set iff the status is
not PENDING, completed_at is set iff the status is COMPLETED or FAILED. -/
def timestampInvariant (r : Record) : Prop :=
  (r.started_at.isSome ↔ r.status ≠ .pending)
  ∧ (r.completed_at.isSome ↔ (r.status = .completed ∨ r.status = .failed))

/-- A freshly created deployment row as the accepting endpoint inserts it:
PENDING, no timestamps, no outputs, no error, empty logs, no task id. -/
def freshRecord : Record :=
  { status := .pending, started_at := none, completed_at := none, outputs := none,
    error_message := none, logs := "", celery_task_id := none }

/-- A concrete environment for witnesses: provider construction succeeds,
the deploy call behaves as given, timestamps render as T, no traceback,
the regex matcher never matches. -/
def demoWorld (dep : DeployBehavior) : World :=
  { ctor := .ok, dep := dep, iso := fun n => "T" ++ toString n, tb := "", re := fun _ _ => false }

/-- A concrete gcp dispatch input for witnesses. -/
def demoInput : TaskInput :=
  { deployment_id := "d1", provider_type := "terraform-gcp", template_path := "main.tf",
    parameters := [("bucket_name", .s "b1")], resource_group := none,
    provider_config := some [("project_id", .s "p1"), ("region", .s "us-central1")] }

/-- Every committed record state satisfies the timestamp invariant. -/
def commitsTimestampOk (evs : List Event) : Prop :=
  ∀ r ∈ commitsOf evs, timestampInvariant r

/-- The final record, when present, relates outputs and error_message to
the terminal status as the spec demands. -/
def finalOutputsErrorOk (o : Option Record) : Prop :=
  ∀ r, o = some r →
    (r.status = .completed → r.outputs.isSome ∧ r.error_message = none)
    ∧ (r.status = .failed → r.error_message.isSome)

/-- The run never writes the provider-initialized log line of source
line 157. -/
def noProviderInitializedLog (evs : List Event) : Prop :=
  ∀ m, Event.logWrite 157 m ∉ evs

/-- create_provider rejects every unregistered lower-cased tag with the
unsupported-provider ProviderConfigurationError, under every construction
behaviour. -/
def unknownTagRejected : Prop :=
  ∀ (pt : String) (ctor : CtorBehavior), pyLower pt ∉ registryKeys →
    (create_provider pt ctor).2 =
      .error (.providerConfigError
        ("Unsupported provider type: \x27" ++ pt
          ++ "\x27. Available providers: " ++ availableProvidersText) pt)

/-- The task re-raised a RuntimeError rather than returning. -/
def runRaisesError (res : RunResult) : Prop :=
  ∃ msg, res.ret = .error msg

/-- The factory rejects the azure tag with a ProviderConfigurationError
under every construction behaviour. -/
def azureFactoryRejects : Prop :=
  ∀ ctor : CtorBehavior, ∃ msg,
    (create_provider "azure" ctor).2 = .error (.providerConfigError msg "azure")

/-- The final record, when present, is FAILED. -/
def finalFailed (o : Option Record) : Prop :=
  ∀ r, o = some r → r.status = .failed

/-- The final record, when present, is FAILED with completed_at set and
the raw quota text stored verbatim as the error message. -/
def quotaFinalState (o : Option Record) : Prop :=
  ∀ r, o = some r →
    r.status = .failed ∧ r.completed_at.isSome
    ∧ r.error_message = some "Error: quota exceeded"

/-- A record that already carries log content when the task starts, to
observe the initial logs assignment of source line 120. -/
def preLoggedRecord : Record :=
  { status := .pending, started_at := none, completed_at := none, outputs := none,
    error_message := none, logs := "PRE-EXISTING LINE\n", celery_task_id := none }

/-- A gcp dispatch whose parameters carry tags, projectId and also
project_id, the case in which the source skips the projectId rename. -/
def gcpDupInput : TaskInput :=
  { deployment_id := "d2", provider_type := "terraform-gcp", template_path := "main.tf",
    parameters := [("tags", .blob 0), ("projectId", .s "p1"), ("project_id", .s "q")],
    resource_group := none, provider_config := some [("region", .s "us-central1")] }

/-- A gcp dispatch with tags and projectId and no project_id, satisfying
the amended premises of the rename claim. -/
def gcpWitInput : TaskInput :=
  { deployment_id := "d3", provider_type := "terraform-gcp", template_path := "main.tf",
    parameters := [("tags", .blob 0), ("projectId", .s "p1")],
    resource_group := none, provider_config := some [("region", .s "us-central1")] }

/-- An input whose provider tag is registered under no lower-casing. -/
def unknownInput : TaskInput :=
  { deployment_id := "d4", provider_type := "cloudformation", template_path := "main.tf",
    parameters := [], resource_group := none, provider_config := none }

/-- A bicep dispatch input. -/
def bicepInput : TaskInput :=
  { deployment_id := "d5", provider_type := "bicep", template_path := "main.bicep",
    parameters := [], resource_group := some "rg1", provider_config := none }

theorem dget?_dset_self (m : Dict) (k : String) (v : JVal) :
    dget? (dset m k v) k = some v := by
  induction m with
  | nil => simp [dset, dget?]
  | cons p t ih =>
    by_cases h : p.1 = k
    · simp [dset, dget?, h]
    · simp [dset, dget?, h, ih]

theorem dget?_dset_ne (m : Dict) (k k' : String) (v : JVal) (h : k ≠ k') :
    dget? (dset m k v) k' = dget? m k' := by
  induction m with
  | nil => simp [dset, dget?, h]
  | cons p t ih =>
    by_cases hp : p.1 = k
    · simp [dset, dget?, hp, h]
    · simp [dset, dget?, hp, ih]

theorem dget?_derase_self (m : Dict) (k : String) :
    dget? (derase m k) k = none := by
  induction m with
  | nil => simp [derase, dget?]
  | cons p t ih =>
    by_cases hp : p.1 = k
    · simpa [derase, dget?, hp] using ih
    · simpa [derase, dget?, hp] using ih

theorem dget?_derase_ne (m : Dict) (k k' : String) (h : k ≠ k') :
    dget? (derase m k) k' = dget? m k' := by
  induction m with
  | nil => simp [derase, dget?]
  | cons p t ih =>
    simp only [derase] at ih ⊢
    by_cases hp : p.1 = k
    · simp [List.filter_cons, hp, dget?, h, ih]
    · by_cases hq : p.1 = k'
      · simp [List.filter_cons, hp, dget?, hq, Ne.symm h]
      · simp [List.filter_cons, hp, dget?, hq, ih]

/-- Commit extraction distributes over event-list concatenation. -/
theorem commitsOf_append (a b : List Event) :
    commitsOf (a ++ b) = commitsOf a ++ commitsOf b := by
  induction a with
  | nil => rfl
  | cons e t ih => cases e <;> simp [commitsOf, ih]

/-- Commit extraction distributes over a conditional event list. -/
theorem commitsOf_ite (c : Prop) [Decidable c] (a b : List Event) :
    commitsOf (if c then a else b) = if c then commitsOf a else commitsOf b := by
  split <;> rfl

/-- C7: for every invocation, _run_terraform_command returns the pair of
combined stdout+stderr and the process exit code, and never raises when
the process exits with a nonzero code; when the subprocess exceeds the
fixed 600-second wall-clock timeout it instead raises a DeploymentError
reporting the timeout, and the subprocess call is issued with
timeout 600. -/
theorem run_terraform_command_contract (command : List String)
    (stdout stderr : String) (rc : Int) :
    _run_terraform_command (.completed stdout stderr rc) = .ok (stdout ++ stderr, rc)
    ∧ _run_terraform_command .timedOut =
        .error (.deploymentError "Terraform command timed out after 10 minutes" "terraform")
    ∧ (terraformSubprocCall command).timeoutSeconds = 600 :=
  ⟨rfl, rfl, rfl⟩

/-- C4: parse_terraform_error is total and deterministic: for every
matcher behaviour and every input string, including the empty string and
text matching no pattern, the returned dict contains the title, message
and solution keys, and two calls on identical input return identical
dicts. Totality holds by construction of the embedding, every branch of
the source returning a literal dict. -/
theorem parse_terraform_error_total_and_deterministic
    (re : String → String → Bool) (s : String) :
    (sget? (parse_terraform_error re s) "title").isSome
    ∧ (sget? (parse_terraform_error re s) "message").isSome
    ∧ (sget? (parse_terraform_error re s) "solution").isSome
    ∧ parse_terraform_error re s = parse_terraform_error re s := by
  refine ⟨?_, ?_, ?_, rfl⟩ <;>
  · unfold parse_terraform_error
    by_cases h : s = ""
    · simp [h, sget?]
    · simp only [h, if_false]
      cases hf : ERROR_PATTERNS.find? (fun p => re p.pattern s) with
      | none => simp [sget?]
      | some p =>
        by_cases hex : (p.exampleText.getD "") ≠ ""
        · simp [hex, sget?]
        · simp [hex, sget?]

/-- C10: for every dispatch that reaches the provider deploy call, the
merged parameter mapping handed to provider.deploy has its location key
set to the region of the provider configuration, or the default us-east-1
when region is absent, overwriting any caller-supplied location. The
merge operates on a copy, the embedding being pure like the source's
parameters.copy(). -/
theorem deploy_parameters_location_overwritten (inp : TaskInput) (taskId : String)
    (w : World) (d0 : Option Record) (m : Dict)
    (h : deployCallOf (deploy_infrastructure inp taskId w d0).events = some m) :
    dget? m "location" =
      some ((dget? (inp.provider_config.getD []) "region").getD (.s "us-east-1")) := by
  have hm : ∀ apt params pcfg rg loc,
      dget? (mergeDeploymentParameters apt params pcfg rg loc) "location" = some loc := by
    intro apt params pcfg rg loc
    simp [mergeDeploymentParameters, dget?_dset_self]
  unfold deploy_infrastructure deployWithRecord deployNoRecord at h
  by_cases hreg : pyLower (provider_type_mapping inp.provider_type) ∈ registryKeys <;>
    cases d0 <;> cases hc : w.ctor <;> cases hd : w.dep <;>
    all_goals simp_all [create_provider, handleTypedError, handleGenericError,
      deployCallOf, hm]
  all_goals subst h
  all_goals exact hm _ _ _ _ _

/-- C1: for every record processed by deploy_infrastructure starting from
a state with completed_at unset, after every database commit the task
performs, on the success path and on both failure paths, started_at is
set iff the status is not PENDING and completed_at is set iff the status
is COMPLETED or FAILED. -/
theorem commit_timestamp_invariant (inp : TaskInput) (taskId : String) (w : World)
    (r0 : Record) (h : r0.completed_at = none) :
    commitsTimestampOk (deploy_infrastructure inp taskId w (some r0)).events := by
  unfold commitsTimestampOk deploy_infrastructure deployWithRecord
  by_cases hreg : pyLower (provider_type_mapping inp.provider_type) ∈ registryKeys <;>
    cases hc : w.ctor <;> cases hd : w.dep <;>
    simp_all [create_provider, handleTypedError, handleGenericError, commitsOf,
      commitsOf_ite, commitsOf_append, ite_self, Record.extendLogs, timestampInvariant]

/-- C2: for every run of deploy_infrastructure on an existing record whose
error_message starts unset, if the final status is COMPLETED then outputs
is non-null and error_message is null, and if the final status is FAILED
then error_message is non-null. -/
theorem final_outputs_error_message (inp : TaskInput) (taskId : String) (w : World)
    (r0 : Record) (hE : r0.error_message = none) :
    finalOutputsErrorOk (deploy_infrastructure inp taskId w (some r0)).final := by
  unfold finalOutputsErrorOk deploy_infrastructure deployWithRecord
  by_cases hreg : pyLower (provider_type_mapping inp.provider_type) ∈ registryKeys <;>
    cases hc : w.ctor <;> cases hd : w.dep <;>
    simp_all [create_provider, handleTypedError, handleGenericError,
      Record.extendLogs]

/-- C8 (amended): within one run, every commit after the first extends the
previously committed logs value at the end; the first write of the run
replaces the logs field rather than appending. -/
theorem logs_extend_between_commits (inp : TaskInput) (taskId : String)
    (w : World) (d0 : Option Record) :
    List.Chain' (fun a b => ∃ s, b.logs = a.logs ++ s)
      (commitsOf (deploy_infrastructure inp taskId w d0).events) := by
  unfold deploy_infrastructure deployWithRecord deployNoRecord
  by_cases hreg : pyLower (provider_type_mapping inp.provider_type) ∈ registryKeys <;>
    cases d0 <;> cases hc : w.ctor <;> cases hd : w.dep <;>
    simp_all [create_provider, handleTypedError, handleGenericError, commitsOf,
      commitsOf_ite, commitsOf_append, ite_self, Record.extendLogs, List.chain'_cons]

/-- An unregistered lower-cased tag stays unregistered after the bicep-arm
mapping: bicep and arm map to azure, which is itself not registered, and
every other tag with an unregistered lower-casing maps to itself. -/
theorem mapped_tag_not_registered (pt : String)
    (h : pyLower pt ∉ registryKeys) :
    pyLower (provider_type_mapping pt) ∉ registryKeys := by
  by_cases h1 : pt = "bicep"
  · simp [provider_type_mapping, h1]; decide
  · by_cases h2 : pt = "arm"
    · simp [provider_type_mapping, h1, h2]; decide
    · by_cases h3 : pt = "terraform-azure"
      · subst h3; simpa [provider_type_mapping] using h
      · by_cases h4 : pt = "terraform-gcp"
        · subst h4; simpa [provider_type_mapping] using h
        · simpa [provider_type_mapping, h1, h2, h3, h4] using h

/-- C5: for every provider_type whose lower-cased form is not a registry
key, create_provider fails with a ProviderConfigurationError under every
construction behaviour and never returns a provider, and inside
deploy_infrastructure the failure happens before any working directory is
created and before the provider-initialized log line of source line 157 is
written: the run raises, creates no working directory, and never emits
that log line. -/
theorem unknown_provider_fails_fast (inp : TaskInput) (taskId : String) (w : World)
    (d0 : Option Record)
    (h : pyLower inp.provider_type ∉ registryKeys) :
    unknownTagRejected
    ∧ Event.mkWorkDir ∉ (deploy_infrastructure inp taskId w d0).events
    ∧ noProviderInitializedLog (deploy_infrastructure inp taskId w d0).events
    ∧ runRaisesError (deploy_infrastructure inp taskId w d0) := by
  have hreg := mapped_tag_not_registered inp.provider_type h
  refine ⟨fun pt ctor hpt => by simp [create_provider, hpt], ?_, ?_, ?_⟩
  · unfold deploy_infrastructure deployWithRecord deployNoRecord
    cases d0 <;> simp [create_provider, hreg, handleTypedError, handleGenericError]
  · unfold noProviderInitializedLog deploy_infrastructure deployWithRecord deployNoRecord
    cases d0 <;> simp [create_provider, hreg, handleTypedError, handleGenericError]
  · unfold runRaisesError deploy_infrastructure deployWithRecord deployNoRecord
    cases d0 <;> simp [create_provider, hreg, handleTypedError, handleGenericError]

/-- C9: dispatching with provider_type bicep or arm always fails: the task
maps both tags to azure, which is not a key of the factory registry, so
create_provider raises a ProviderConfigurationError under every
construction behaviour, the record ends FAILED whatever the template and
parameters, and the task re-raises. -/
theorem bicep_arm_always_fail (inp : TaskInput) (taskId : String) (w : World)
    (r0 : Record)
    (h : inp.provider_type = "bicep" ∨ inp.provider_type = "arm") :
    provider_type_mapping inp.provider_type = "azure"
    ∧ azureFactoryRejects
    ∧ finalFailed (deploy_infrastructure inp taskId w (some r0)).final
    ∧ runRaisesError (deploy_infrastructure inp taskId w (some r0)) := by
  have hmap : provider_type_mapping inp.provider_type = "azure" := by
    rcases h with h | h <;> simp [provider_type_mapping, h]
  have hreg : pyLower "azure" ∉ registryKeys := by decide
  refine ⟨hmap, ?_, ?_, ?_⟩
  · intro ctor
    exact ⟨"Unsupported provider type: \x27" ++ "azure"
        ++ "\x27. Available providers: " ++ availableProvidersText,
      by simp [create_provider, hreg]⟩
  · unfold finalFailed deploy_infrastructure deployWithRecord
    rw [hmap]
    simp [create_provider, hreg, handleTypedError]
  · unfold runRaisesError deploy_infrastructure deployWithRecord
    rw [hmap]
    simp [create_provider, hreg, handleTypedError]

/-- The gcp branch of the parameter merge when the caller parameters hold
tags and projectId but no project_id: tags is renamed to labels keeping
its value, projectId is renamed to project_id keeping its value, and none
of tags, projectId or resource_group_name survive into the merged dict. -/
theorem merge_gcp_renames (apt : String) (params pcfg : Dict) (rg : Option String)
    (loc : JVal) (tv pv : JVal)
    (hA : strContainsSub apt "azure" = false)
    (hG : strContainsSub apt "gcp" = true)
    (hT : dget? params "tags" = some tv)
    (hP : dget? params "projectId" = some pv)
    (hNo : dcontains params "project_id" = false) :
    dget? (mergeDeploymentParameters apt params pcfg rg loc) "labels" = some tv
    ∧ dget? (mergeDeploymentParameters apt params pcfg rg loc) "project_id" = some pv
    ∧ dcontains (mergeDeploymentParameters apt params pcfg rg loc) "tags" = false
    ∧ dcontains (mergeDeploymentParameters apt params pcfg rg loc) "projectId" = false
    ∧ dcontains (mergeDeploymentParameters apt params pcfg rg loc) "resource_group_name" = false := by
  have hTv : (dget? params "tags").getD JVal.null = tv := by rw [hT]; rfl
  have hTc : dcontains params "tags" = true := by simp [dcontains, hT]
  have hpidN : dget? params "project_id" = none := by
    rcases e : dget? params "project_id" with _ | v
    · rfl
    · exfalso; simp [dcontains, e] at hNo
  simp only [mergeDeploymentParameters, hA, hG, hTc, hTv, Bool.false_eq_true,
    if_false, if_true, ite_true, ite_false]
  set d1 : Dict := dset (derase params "tags") "labels" tv with hd1
  have g1L : dget? d1 "labels" = some tv := dget?_dset_self _ _ _
  have g1P : dget? d1 "projectId" = some pv := by
    rw [hd1, dget?_dset_ne _ _ _ _ (by decide), dget?_derase_ne _ _ _ (by decide), hP]
  have g1pid : dget? d1 "project_id" = none := by
    rw [hd1, dget?_dset_ne _ _ _ _ (by decide), dget?_derase_ne _ _ _ (by decide), hpidN]
  have g1T : dget? d1 "tags" = none := by
    rw [hd1, dget?_dset_ne _ _ _ _ (by decide), dget?_derase_self]
  have c2 : (dcontains d1 "projectId" && !dcontains d1 "project_id") = true := by
    simp [dcontains, g1P, g1pid]
  simp only [c2, if_true, ite_true, g1P, Option.getD_some]
  set d2 : Dict := dset (derase d1 "projectId") "project_id" pv with hd2
  have g2pid : dget? d2 "project_id" = some pv := dget?_dset_self _ _ _
  have g2L : dget? d2 "labels" = some tv := by
    rw [hd2, dget?_dset_ne _ _ _ _ (by decide), dget?_derase_ne _ _ _ (by decide), g1L]
  have g2T : dget? d2 "tags" = none := by
    rw [hd2, dget?_dset_ne _ _ _ _ (by decide), dget?_derase_ne _ _ _ (by decide), g1T]
  have g2P : dget? d2 "projectId" = none := by
    rw [hd2, dget?_dset_ne _ _ _ _ (by decide), dget?_derase_self]
  have c3 : (!dcontains d2 "project_id" && dcontains pcfg "project_id") = false := by
    simp [dcontains, g2pid]
  simp only [c3, Bool.false_eq_true, if_false, ite_false]
  by_cases c4 : dcontains d2 "resource_group_name" = true
  · simp only [c4, if_true, ite_true]
    refine ⟨?_, ?_, ?_, ?_, ?_⟩ <;>
      simp [dcontains, dget?_dset_ne _ _ _ _ (by decide : ("location" : String) ≠ "labels"),
        dget?_dset_ne _ _ _ _ (by decide : ("location" : String) ≠ "project_id"),
        dget?_dset_ne _ _ _ _ (by decide : ("location" : String) ≠ "tags"),
        dget?_dset_ne _ _ _ _ (by decide : ("location" : String) ≠ "projectId"),
        dget?_dset_ne _ _ _ _ (by decide : ("location" : String) ≠ "resource_group_name"),
        dget?_derase_ne _ _ _ (by decide : ("resource_group_name" : String) ≠ "labels"),
        dget?_derase_ne _ _ _ (by decide : ("resource_group_name" : String) ≠ "project_id"),
        dget?_derase_ne _ _ _ (by decide : ("resource_group_name" : String) ≠ "tags"),
        dget?_derase_ne _ _ _ (by decide : ("resource_group_name" : String) ≠ "projectId"),
        dget?_derase_self, g2L, g2pid, g2T, g2P]
  · have c4n : dget? d2 "resource_group_name" = none := by
      rcases e : dget? d2 "resource_group_name" with _ | v
      · rfl
      · exact absurd (by simp [dcontains, e]) c4
    simp only [c4, if_false, ite_false]
    refine ⟨?_, ?_, ?_, ?_, ?_⟩ <;>
      simp [dcontains, dget?_dset_ne _ _ _ _ (by decide : ("location" : String) ≠ "labels"),
        dget?_dset_ne _ _ _ _ (by decide : ("location" : String) ≠ "project_id"),
        dget?_dset_ne _ _ _ _ (by decide : ("location" : String) ≠ "tags"),
        dget?_dset_ne _ _ _ _ (by decide : ("location" : String) ≠ "projectId"),
        dget?_dset_ne _ _ _ _ (by decide : ("location" : String) ≠ "resource_group_name"),
        g2L, g2pid, g2T, g2P, c4n]

/-- C6 (amended): for every dispatch with a gcp provider tag whose
parameters contain tags and projectId but not project_id, the mapping
handed to provider.deploy has labels bound to the original tags value and
project_id bound to the original projectId value, and carries none of the
keys tags, projectId or resource_group_name. The added premise that the
caller did not also send project_id is required: the source only renames
projectId when project_id is absent. -/
theorem gcp_param_renames (inp : TaskInput) (taskId : String) (w : World)
    (d0 : Option Record) (tv pv : JVal) (m : Dict)
    (hA : strContainsSub (provider_type_mapping inp.provider_type) "azure" = false)
    (hG : strContainsSub (provider_type_mapping inp.provider_type) "gcp" = true)
    (hT : dget? inp.parameters "tags" = some tv)
    (hP : dget? inp.parameters "projectId" = some pv)
    (hNo : dcontains inp.parameters "project_id" = false)
    (h : deployCallOf (deploy_infrastructure inp taskId w d0).events = some m) :
    dget? m "labels" = some tv ∧ dget? m "project_id" = some pv
    ∧ dcontains m "tags" = false ∧ dcontains m "projectId" = false
    ∧ dcontains m "resource_group_name" = false := by
  have key := merge_gcp_renames (provider_type_mapping inp.provider_type) inp.parameters
    (inp.provider_config.getD []) inp.resource_group
    ((dget? (inp.provider_config.getD []) "region").getD (.s "us-east-1")) tv pv hA hG hT hP hNo
  unfold deploy_infrastructure deployWithRecord deployNoRecord at h
  by_cases hreg : pyLower (provider_type_mapping inp.provider_type) ∈ registryKeys <;>
    cases d0 <;> cases hc : w.ctor <;> cases hd : w.dep <;>
    simp_all [create_provider, handleTypedError, handleGenericError, deployCallOf]

/-- C3 (amended): when the provider deploy call raises a DeploymentError
whose raw text is Error: quota exceeded, deploy_infrastructure ends the
record FAILED with completed_at set, but error_message stores the
ANSI-stripped raw text itself rather than a classified title: the
classifier is never consulted on the typed path because DeploymentError
defines no get_friendly_message, so the raw text appears in error_message
as well as in the logs. -/
theorem quota_failure_stores_raw_text (inp : TaskInput) (taskId : String) (w : World)
    (r0 : Record)
    (hc : w.ctor = .ok)
    (hd : w.dep = .deployError "Error: quota exceeded")
    (hreg : pyLower (provider_type_mapping inp.provider_type) ∈ registryKeys) :
    quotaFinalState (deploy_infrastructure inp taskId w (some r0)).final := by
  have hs : strip_ansi_codes "Error: quota exceeded" = "Error: quota exceeded" := by decide
  unfold quotaFinalState deploy_infrastructure deployWithRecord
  simp [create_provider, hreg, hc, hd, handleTypedError, hs, PyExc.str]

set_option maxRecDepth 40000 in
/-- C3 (counterexample): on a fresh record, with the provider deploy call
raising the raw text Error: quota exceeded, the record ends FAILED but
error_message is the raw text itself: it does not contain the classified
title Quota Exceeded, and the raw text is stored in error_message as well
as in logs, contradicting the claim that the title is stored and the raw
text is preserved only in the logs. -/
theorem quota_failure_counterexample :
    ((deploy_infrastructure demoInput "t1"
        (demoWorld (.deployError "Error: quota exceeded")) (some freshRecord)).final).map
      (fun r => (r.status, r.error_message,
        strContainsSub (r.error_message.getD "") "Quota Exceeded",
        strContainsSub r.logs "Error: quota exceeded")) =
    some (.failed, some "Error: quota exceeded", false, true) := by decide

set_option maxRecDepth 40000 in
/-- C8 (counterexample): the first committed state of a run on a record
with pre-existing log content no longer contains that content: source
line 120 assigns logs rather than appending, so log content present
before the task started is replaced. -/
theorem logs_replaced_counterexample :
    preLoggedRecord.logs = "PRE-EXISTING LINE\n"
    ∧ ((commitsOf (deploy_infrastructure demoInput "t1" (demoWorld (.success []))
          (some preLoggedRecord)).events).head?).map
        (fun r => strContainsSub r.logs "PRE-EXISTING") = some false := by decide

set_option maxRecDepth 40000 in
/-- C6 (counterexample): a gcp dispatch whose parameters contain tags and
projectId, as the claim requires, but also project_id: the mapping handed
to provider.deploy still contains the key projectId and its project_id is
the caller value q, not the projectId value p1, contradicting the claim
for this dispatch. -/
theorem gcp_rename_counterexample :
    dcontains gcpDupInput.parameters "tags" = true
    ∧ dcontains gcpDupInput.parameters "projectId" = true
    ∧ (deployCallOf (deploy_infrastructure gcpDupInput "t1"
          (demoWorld (.success [])) (some freshRecord)).events).map
        (fun m => (dcontains m "projectId", dget? m "project_id")) =
      some (true, some (.s "q")) := by decide

/-- Witness for C1 at a concrete run: the fresh record satisfies the
hypothesis and the invariant holds after every commit. -/
theorem commit_timestamp_invariant_witness :
    freshRecord.completed_at = none
    ∧ commitsTimestampOk (deploy_infrastructure demoInput "t1"
        (demoWorld (.success [("bucket_name", .s "b1")])) (some freshRecord)).events :=
  ⟨rfl, commit_timestamp_invariant demoInput "t1"
    (demoWorld (.success [("bucket_name", .s "b1")])) freshRecord rfl⟩

/-- Witness for C2 at a concrete run. -/
theorem final_outputs_error_message_witness :
    freshRecord.error_message = none
    ∧ finalOutputsErrorOk (deploy_infrastructure demoInput "t1"
        (demoWorld (.success [])) (some freshRecord)).final :=
  ⟨rfl, final_outputs_error_message demoInput "t1" (demoWorld (.success []))
    freshRecord rfl⟩

/-- Witness for the amended C3 at a concrete run. -/
theorem quota_failure_stores_raw_text_witness :
    (demoWorld (.deployError "Error: quota exceeded")).ctor = .ok
    ∧ (demoWorld (.deployError "Error: quota exceeded")).dep =
        .deployError "Error: quota exceeded"
    ∧ pyLower (provider_type_mapping demoInput.provider_type) ∈ registryKeys
    ∧ quotaFinalState (deploy_infrastructure demoInput "t1"
        (demoWorld (.deployError "Error: quota exceeded")) (some freshRecord)).final :=
  ⟨rfl, rfl, by decide,
    quota_failure_stores_raw_text demoInput "t1"
      (demoWorld (.deployError "Error: quota exceeded")) freshRecord rfl rfl (by decide)⟩

/-- Witness for C5 at a concrete unregistered tag. -/
theorem unknown_provider_fails_fast_witness :
    pyLower unknownInput.provider_type ∉ registryKeys
    ∧ (unknownTagRejected
      ∧ Event.mkWorkDir ∉ (deploy_infrastructure unknownInput "t1"
          (demoWorld (.success [])) (some freshRecord)).events
      ∧ noProviderInitializedLog (deploy_infrastructure unknownInput "t1"
          (demoWorld (.success [])) (some freshRecord)).events
      ∧ runRaisesError (deploy_infrastructure unknownInput "t1"
          (demoWorld (.success [])) (some freshRecord))) :=
  ⟨by decide, unknown_provider_fails_fast unknownInput "t1" (demoWorld (.success []))
    (some freshRecord) (by decide)⟩

/-- Witness for the amended C6 at a concrete run: the merged mapping is
computed explicitly. -/
theorem gcp_param_renames_witness :
    strContainsSub (provider_type_mapping gcpWitInput.provider_type) "azure" = false
    ∧ strContainsSub (provider_type_mapping gcpWitInput.provider_type) "gcp" = true
    ∧ dget? gcpWitInput.parameters "tags" = some (.blob 0)
    ∧ dget? gcpWitInput.parameters "projectId" = some (.s "p1")
    ∧ dcontains gcpWitInput.parameters "project_id" = false
    ∧ (dget? [("labels", JVal.blob 0), ("project_id", JVal.s "p1"),
          ("location", JVal.s "us-central1")] "labels" = some (.blob 0)
      ∧ dget? [("labels", JVal.blob 0), ("project_id", JVal.s "p1"),
          ("location", JVal.s "us-central1")] "project_id" = some (.s "p1")
      ∧ dcontains [("labels", JVal.blob 0), ("project_id", JVal.s "p1"),
          ("location", JVal.s "us-central1")] "tags" = false
      ∧ dcontains [("labels", JVal.blob 0), ("project_id", JVal.s "p1"),
          ("location", JVal.s "us-central1")] "projectId" = false
      ∧ dcontains [("labels", JVal.blob 0), ("project_id", JVal.s "p1"),
          ("location", JVal.s "us-central1")] "resource_group_name" = false) :=
  ⟨by decide, by decide, rfl, rfl, rfl,
    gcp_param_renames gcpWitInput "t1" (demoWorld (.success [])) (some freshRecord)
      (.blob 0) (.s "p1")
      [("labels", JVal.blob 0), ("project_id", JVal.s "p1"),
        ("location", JVal.s "us-central1")]
      (by decide) (by decide) rfl rfl rfl (by decide)⟩

/-- Witness for C9 at a concrete bicep dispatch. -/
theorem bicep_arm_always_fail_witness :
    (bicepInput.provider_type = "bicep" ∨ bicepInput.provider_type = "arm")
    ∧ (provider_type_mapping bicepInput.provider_type = "azure"
      ∧ azureFactoryRejects
      ∧ finalFailed (deploy_infrastructure bicepInput "t1"
          (demoWorld (.success [])) (some freshRecord)).final
      ∧ runRaisesError (deploy_infrastructure bicepInput "t1"
          (demoWorld (.success [])) (some freshRecord))) :=
  ⟨Or.inl rfl, bicep_arm_always_fail bicepInput "t1" (demoWorld (.success []))
    freshRecord (Or.inl rfl)⟩

/-- Witness for C10 at a concrete run: the location of the merged mapping
is the provider_config region. -/
theorem location_overwritten_witness :
    dget? (mergeDeploymentParameters (provider_type_mapping gcpWitInput.provider_type)
        gcpWitInput.parameters (gcpWitInput.provider_config.getD [])
        gcpWitInput.resource_group
        ((dget? (gcpWitInput.provider_config.getD []) "region").getD (.s "us-east-1")))
      "location"
      = some ((dget? (gcpWitInput.provider_config.getD []) "region").getD (.s "us-east-1")) :=
  deploy_parameters_location_overwritten gcpWitInput "t1" (demoWorld (.success []))
    (some freshRecord) _ rfl

end MCHub
